import Mathlib

/-!
Shallow embedding of the alert throttling logic of tornado-monitor.

The embedded code:
* `HealthAlertService.sendAlert` (src/services/health/healthAlertService.ts,
  lines 32-68); the identical burst/throttle logic also appears in
  `TelegramAlertSender.sendAlert`.
* `PriceAlertService.sendAlert` (priceAlertService.ts, lines 37-64).
* the alert-key construction sites (`networkName:message`, `type:currentPrice`)
  and the message built by `TornadoHealthMonitor.onUnhealthy`.

Times are `Date.now()` millisecond values, modelled as `Nat`; the JS
subtractions `now - lastAlert` are computed in `Int` (they may be negative in
JS). JS `Map<string, number>` is modelled as `String → Option Nat`. The
outbound Telegram send is modelled by a boolean parameter `sendOk` giving the
result the client would return; `attempted` records whether control reached
the render-and-send lines at all.
-/

/-- A JS `Map<string, number>`: lookup yields `undefined` (`none`) for absent keys. -/
abbrev Store := String → Option Nat

def Store.empty : Store := fun _ => none

/-- `map.set(k, v)` of a JS Map. -/
def Store.set (m : Store) (k : String) (v : Nat) : Store :=
  fun k' => if k' = k then some v else m k'

/-- The three throttle parameters of `HealthAlertService` /
`TelegramAlertSender`: `MIN_ALERT_INTERVAL` (mutable via `setAlertInterval`),
`BURST_LIMIT` and `BURST_WINDOW` (readonly). -/
structure ThrottleConfig where
  minInterval : Nat
  burstLimit : Nat
  burstWindow : Nat

/-- The values hard-coded in the source: 5 minutes, 3 alerts, 15 minutes. -/
def healthConfig : ThrottleConfig :=
  { minInterval := 5 * 60 * 1000, burstLimit := 3, burstWindow := 15 * 60 * 1000 }

/-- The throttle state of `HealthAlertService` (and `TelegramAlertSender`):
the two maps `lastAlertTime` and `alertCounts`. -/
structure HealthState where
  lastAlertTime : Store
  alertCounts : Store

def HealthState.empty : HealthState := ⟨Store.empty, Store.empty⟩

/-- Line 38: `const alertKey = `${alert.networkName}:${alert.message}`;`. -/
def healthAlertKey (networkName message : String) : String :=
  networkName ++ ":" ++ message

/-- Line 43: `if (lastAlert && now - lastAlert > this.BURST_WINDOW)`. -/
def healthWindowPassed (cfg : ThrottleConfig) (lastAlert : Option Nat) (now : Nat) : Bool :=
  match lastAlert with
  | none => false
  | some v => v != 0 && decide ((now : Int) - (v : Int) > (cfg.burstWindow : Int))

/-- Lines 50-55: suppress when `currentCount >= BURST_LIMIT` and
`lastAlert && now - lastAlert < MIN_ALERT_INTERVAL`. -/
def healthThrottled (cfg : ThrottleConfig) (lastAlert : Option Nat)
    (currentCount : Nat) (now : Nat) : Bool :=
  decide (currentCount ≥ cfg.burstLimit) &&
    (match lastAlert with
     | none => false
     | some v => v != 0 && decide ((now : Int) - (v : Int) < (cfg.minInterval : Int)))

/-- The outcome of one `sendAlert` call: the returned boolean, the state of the
two maps after the call, and whether control reached the format-and-send lines
(58-59) at all. -/
structure SendOutcome where
  success : Bool
  state : HealthState
  attempted : Bool

/-- Lines 43-45: the `alertCounts` map after the reset-if-burst-window-passed
step, the only mutation that can precede the throttle decision. -/
def healthCounts1 (cfg : ThrottleConfig) (s : HealthState) (alertKey : String)
    (now : Nat) : Store :=
  if healthWindowPassed cfg (s.lastAlertTime alertKey) now
  then s.alertCounts.set alertKey 0 else s.alertCounts

/-- `HealthAlertService.sendAlert` (lines 32-68). `enabled` is
`this.isEnabled()`; `sendOk` is the boolean the Telegram client returns when a
send is attempted. Identical logic (lines 16-59 of `TelegramAlertSender`,
whose try/catch turns a thrown transport error into the same
return-false-without-recording path) is covered by the alias below. -/
def HealthAlertService.sendAlert (cfg : ThrottleConfig) (enabled : Bool)
    (networkName message : String) (now : Nat) (sendOk : Bool)
    (s : HealthState) : SendOutcome :=
  if !enabled then ⟨false, s, false⟩
  else
    let alertKey := healthAlertKey networkName message
    -- lines 43-45 (reset count if burst window has passed), then
    -- line 48: `const currentCount = this.alertCounts.get(alertKey) || 0`
    let counts1 := healthCounts1 cfg s alertKey now
    let currentCount := (counts1 alertKey).getD 0
    if healthThrottled cfg (s.lastAlertTime alertKey) currentCount now then
      ⟨false, { s with alertCounts := counts1 }, false⟩
    else if sendOk then
      ⟨true, ⟨s.lastAlertTime.set alertKey now, counts1.set alertKey (currentCount + 1)⟩, true⟩
    else
      ⟨false, { s with alertCounts := counts1 }, true⟩

/-- `TelegramAlertSender.sendAlert`: byte-for-byte the same throttle algorithm. -/
def TelegramAlertSender.sendAlert := HealthAlertService.sendAlert

/-- Run a sequence of `sendAlert` calls for one fixed alert identity; each call
is a pair `(now, sendOk)`. Returns the list of returned booleans and the final
state. -/
def runHealthCalls (cfg : ThrottleConfig) (enabled : Bool)
    (networkName message : String) :
    List (Nat × Bool) → HealthState → List Bool × HealthState
  | [], s => ([], s)
  | (now, ok) :: rest, s =>
    let r := HealthAlertService.sendAlert cfg enabled networkName message now ok s
    let (results, s') := runHealthCalls cfg enabled networkName message rest r.state
    (r.success :: results, s')

/-- The `type` field of a `PriceAlert` (priceAlertService.ts, line 5). -/
inductive PriceAlertType where
  | startup
  | price_change
  | price_threshold
  | config_update
  | service_status
deriving DecidableEq

/-- The string value of the `type` literal, as interpolated into the key. -/
def PriceAlertType.str : PriceAlertType → String
  | .startup => "startup"
  | .price_change => "price_change"
  | .price_threshold => "price_threshold"
  | .config_update => "config_update"
  | .service_status => "service_status"

/-- Line 43: `["startup", "config_update", "service_status"].includes(alert.type)`. -/
def priceExempt (t : PriceAlertType) : Bool :=
  t == .startup || t == .config_update || t == .service_status

/-- Line 44: `const alertKey = `${alert.type}:${alert.currentPrice}`;`. -/
def priceAlertKey (t : PriceAlertType) (currentPrice : String) : String :=
  t.str ++ ":" ++ currentPrice

/-- `MIN_ALERT_INTERVAL` of `PriceAlertService` (readonly, line 29): 1 minute. -/
def PRICE_MIN_ALERT_INTERVAL : Nat := 60 * 1000

/-- The throttle state of `PriceAlertService`: just the `lastAlertTime` map. -/
structure PriceState where
  lastAlertTime : Store

def PriceState.empty : PriceState := ⟨Store.empty⟩

structure PriceOutcome where
  success : Bool
  state : PriceState
  attempted : Bool

/-- Line 48: `if (lastAlert && now - lastAlert < this.MIN_ALERT_INTERVAL)`. -/
def priceThrottled (lastAlert : Option Nat) (now : Nat) : Bool :=
  match lastAlert with
  | none => false
  | some v => v != 0 && decide ((now : Int) - (v : Int) < (PRICE_MIN_ALERT_INTERVAL : Int))

/-- `PriceAlertService.sendAlert` (lines 37-64). Note that for a non-exempt
type the code executes `this.lastAlertTime.set(alertKey, now)` (line 53)
BEFORE attempting the send; the send result only affects logging. -/
def PriceAlertService.sendAlert (enabled : Bool) (t : PriceAlertType)
    (currentPrice : String) (now : Nat) (sendOk : Bool) (s : PriceState) : PriceOutcome :=
  if !enabled then ⟨false, s, false⟩
  else if !priceExempt t then
    let alertKey := priceAlertKey t currentPrice
    let lastAlert := s.lastAlertTime alertKey
    if priceThrottled lastAlert now then ⟨false, s, false⟩
    else ⟨sendOk, ⟨s.lastAlertTime.set alertKey now⟩, true⟩
  else ⟨sendOk, s, true⟩

/-- The alert message built by `TornadoHealthMonitor.onUnhealthy` (line 137):
`API has been unhealthy for ${this.consecutiveFailures} consecutive checks`. -/
def unhealthyMessage (consecutiveFailures : Nat) : String :=
  "API has been unhealthy for " ++ toString consecutiveFailures ++ " consecutive checks"

/-! ### Helper lemmas -/

theorem Store.set_self (m : Store) (k : String) (v : Nat) : m.set k v k = some v := by
  simp [Store.set]

theorem Store.set_ne (m : Store) (k k' : String) (v : Nat) (h : k' ≠ k) :
    m.set k v k' = m k' := by
  simp [Store.set, h]

theorem String.data_inj {a b : String} (h : a.data = b.data) : a = b := by
  cases a; cases b; exact congrArg String.mk h

theorem colonKey_right_cancel {a b m : String} (h : a ++ ":" ++ m = b ++ ":" ++ m) :
    a = b := by
  have hd : (a ++ ":" ++ m).data = (b ++ ":" ++ m).data := congrArg String.data h
  simp only [String.data_append] at hd
  have h2 : a.data ++ ":".data = b.data ++ ":".data := List.append_cancel_right hd
  exact String.data_inj (List.append_cancel_right h2)

theorem colonKey_left_cancel {a m1 m2 : String} (h : a ++ ":" ++ m1 = a ++ ":" ++ m2) :
    m1 = m2 := by
  have hd : (a ++ ":" ++ m1).data = (a ++ ":" ++ m2).data := congrArg String.data h
  simp only [String.data_append, List.append_assoc] at hd
  exact String.data_inj (List.append_cancel_left (List.append_cancel_left hd))

theorem healthAlertKey_scope_ne {s1 s2 : String} (m : String) (h : s1 ≠ s2) :
    healthAlertKey s1 m ≠ healthAlertKey s2 m :=
  fun hk => h (colonKey_right_cancel hk)

theorem healthWindowPassed_mono (cfg : ThrottleConfig) (last : Option Nat)
    (now now' : Nat) (hle : now ≤ now')
    (h : healthWindowPassed cfg last now' = false) :
    healthWindowPassed cfg last now = false := by
  cases last with
  | none => rfl
  | some v =>
    simp only [healthWindowPassed] at h ⊢
    cases hv : (v != 0) with
    | false => simp [hv]
    | true =>
      simp only [hv, Bool.true_and, decide_eq_false_iff_not] at h ⊢
      omega

theorem healthCounts1_lookup (cfg : ThrottleConfig) (s : HealthState) (key : String)
    (now : Nat) :
    healthCounts1 cfg s key now key
      = if healthWindowPassed cfg (s.lastAlertTime key) now then some 0
        else s.alertCounts key := by
  unfold healthCounts1
  split <;> simp [Store.set_self]

theorem healthCounts1_lookup_ne (cfg : ThrottleConfig) (s : HealthState)
    (key k' : String) (now : Nat) (h : k' ≠ key) :
    healthCounts1 cfg s key now k' = s.alertCounts k' := by
  unfold healthCounts1
  split <;> simp [Store.set_ne _ _ _ _ h]

theorem sendAlert_decision_congr (cfg : ThrottleConfig) (n m : String) (now : Nat)
    (ok : Bool) (sa sb : HealthState)
    (h1 : sa.lastAlertTime (healthAlertKey n m) = sb.lastAlertTime (healthAlertKey n m))
    (h2 : healthCounts1 cfg sa (healthAlertKey n m) now (healthAlertKey n m)
        = healthCounts1 cfg sb (healthAlertKey n m) now (healthAlertKey n m)) :
    (HealthAlertService.sendAlert cfg true n m now ok sa).success
      = (HealthAlertService.sendAlert cfg true n m now ok sb).success ∧
    (HealthAlertService.sendAlert cfg true n m now ok sa).attempted
      = (HealthAlertService.sendAlert cfg true n m now ok sb).attempted := by
  simp only [HealthAlertService.sendAlert, Bool.not_true, Bool.false_eq_true, if_false,
    h1, h2]
  split <;> cases ok <;> simp

/-! ### Claim theorems -/

/-- C1 (counterexample): in the spec's scenario (burstLimit=3, minInterval=5min,
burstWindow=15min, all sends succeeding, calls at minutes 0,1,2,3,6) the code
SUPPRESSES the call at t=6: only 4 minutes have elapsed since the last
emission at t=2, so `now - lastAlert < MIN_ALERT_INTERVAL` holds. The claim
asserts that call is allowed; the fifth result below is `false`. -/
theorem C1_counterexample :
    (runHealthCalls healthConfig true "Mainnet" "API is down"
      [(0, true), (60000, true), (120000, true), (180000, true), (360000, true)]
      HealthState.empty).1 = [true, true, true, false, false] := by
  decide

/-- C1 (amended): calls at t=0,1,2 minutes are allowed; t=3 is suppressed;
t=6 is also suppressed (only 4 minutes since the emission at t=2); t=7 is
allowed (5 minutes elapsed); t=25 (more than 15 minutes after the emission at
t=7) resets the burst counter and is allowed regardless of the interval. -/
theorem C1_amended_scenario :
    (runHealthCalls healthConfig true "Mainnet" "API is down"
      [(0, true), (60000, true), (120000, true), (180000, true),
       (360000, true), (420000, true), (1500000, true)] HealthState.empty).1
    = [true, true, true, false, false, true, true] := by
  decide

/-- C5 (counterexample): the throttle keys do NOT exclude embedded dynamic
values. The health key built from `onUnhealthy`'s message embeds the
consecutive-failure count, so the same condition at 3 versus 4 consecutive
failures yields two different keys; the price key embeds the fluctuating
current price. The claim asserts both pairs collapse to one key. -/
theorem C5_counterexample :
    (healthAlertKey "Mainnet" (unhealthyMessage 3)
      == healthAlertKey "Mainnet" (unhealthyMessage 4)) = false ∧
    (priceAlertKey .price_change "1.0" == priceAlertKey .price_change "1.1") = false := by
  decide

/-- C5 (amended): the throttle key is scope:message with the FULL message text
(dynamic annotations such as a consecutive-failure count included) for health
alerts, and type:currentPrice (current price included) for price alerts: with
the scope (resp. type) fixed, two payloads share a throttle key exactly when
their full message (resp. price string) is identical. -/
theorem C5_amended_key_is_full_text :
    (∀ scope m1 m2 : String,
      healthAlertKey scope m1 = healthAlertKey scope m2 ↔ m1 = m2) ∧
    (∀ (t : PriceAlertType) (p1 p2 : String),
      priceAlertKey t p1 = priceAlertKey t p2 ↔ p1 = p2) := by
  constructor
  · intro scope m1 m2
    exact ⟨fun h => colonKey_left_cancel h, fun h => by rw [h]⟩
  · intro t p1 p2
    exact ⟨fun h => colonKey_left_cancel h, fun h => by rw [h]⟩

/-- C6: for the price alert sender (enabled), a payload of an exempt type
(startup, config_update, service_status) bypasses the throttle block entirely:
the send is always attempted, the returned boolean is the client's result, and
the throttle state is untouched — whatever throttle state is recorded. -/
theorem C6_exempt_bypasses_throttle (t : PriceAlertType) (p : String) (now : Nat)
    (ok : Bool) (s : PriceState) (h : priceExempt t = true) :
    PriceAlertService.sendAlert true t p now ok s = ⟨ok, s, true⟩ := by
  simp [PriceAlertService.sendAlert, h]

def c6State : PriceState := ⟨Store.empty.set "startup:1.0" 999999⟩

/-- C6 witness: a startup alert with throttle state already recorded for its
own key is still attempted. -/
theorem C6_witness :
    PriceAlertService.sendAlert true .startup "1.0" 1000000 true c6State
      = ⟨true, c6State, true⟩ :=
  C6_exempt_bypasses_throttle .startup "1.0" 1000000 true c6State (by decide)

/-- C7: with the notification client disabled, `sendAlert` of both the health
alert service and the price alert service returns false immediately, leaves
the state untouched, and never reaches the throttle or the send; consequently
a whole sequence of disabled calls returns all-false and creates no throttle
state. -/
theorem C7_disabled_noop (cfg : ThrottleConfig) (n m : String) (now : Nat)
    (ok : Bool) (s : HealthState) (t : PriceAlertType) (p : String)
    (ps : PriceState) (calls : List (Nat × Bool)) :
    HealthAlertService.sendAlert cfg false n m now ok s = ⟨false, s, false⟩ ∧
    PriceAlertService.sendAlert false t p now ok ps = ⟨false, ps, false⟩ ∧
    runHealthCalls cfg false n m calls s = (List.replicate calls.length false, s) := by
  refine ⟨rfl, rfl, ?_⟩
  induction calls with
  | nil => rfl
  | cons c rest ih =>
    cases c with
    | mk cnow cok => simp [runHealthCalls, HealthAlertService.sendAlert, ih, List.replicate]

def c10State : HealthState :=
  ⟨Store.empty.set "Mainnet:down" 0, Store.empty.set "Mainnet:down" 5⟩

/-- C10: if the stored last-emission timestamp for the key is exactly 0, the
JS truthiness test `if (lastAlert && ...)` skips both the burst-window reset
and the interval check, so the call always proceeds to the send (and returns
the client's result), whatever the burst counter and however little time has
elapsed. -/
theorem C10_zero_timestamp_never_throttled (cfg : ThrottleConfig)
    (n m : String) (now : Nat) (ok : Bool) (s : HealthState)
    (h : s.lastAlertTime (healthAlertKey n m) = some 0) :
    (HealthAlertService.sendAlert cfg true n m now ok s).attempted = true ∧
    (HealthAlertService.sendAlert cfg true n m now ok s).success = ok := by
  simp only [HealthAlertService.sendAlert, Bool.not_true, Bool.false_eq_true, if_false, h]
  have hw : healthWindowPassed cfg (some 0) now = false := by
    simp [healthWindowPassed]
  have ht : ∀ c, healthThrottled cfg (some 0) c now = false := by
    intro c; simp [healthThrottled]
  rw [h] at *
  simp [ht]
  cases ok <;> simp

/-- C10 witness: burst counter 5 (above the limit 3), 10ms elapsed (far below
the 5-minute interval), stored timestamp 0: the alert is still attempted and
succeeds. -/
theorem C10_witness :
    (HealthAlertService.sendAlert healthConfig true "Mainnet" "down" 10 true
      c10State).attempted = true ∧
    (HealthAlertService.sendAlert healthConfig true "Mainnet" "down" 10 true
      c10State).success = true :=
  C10_zero_timestamp_never_throttled healthConfig "Mainnet" "down" 10 true c10State
    (by decide)

theorem healthWindowPassed_some_iff (cfg : ThrottleConfig) (v now : Nat) :
    healthWindowPassed cfg (some v) now = true ↔
      v ≠ 0 ∧ (cfg.burstWindow : Int) < (now : Int) - (v : Int) := by
  simp [healthWindowPassed, gt_iff_lt]

/-- C3 (counterexample): after three successful emissions at clock time 0 the
key has lastEmittedAt = 0 and burst counter 3; the call at now = 900001
(burstWindow + 1, so now - lastEmittedAt > burstWindow) does NOT reset the
counter — the truthiness test skips the reset — and the counter grows to 4,
whereas the claim says the counter is reset to 0 exactly then (a successful
send would then leave it at 1). -/
theorem C3_counterexample :
    ((runHealthCalls healthConfig true "Mainnet" "down"
        [(0, true), (0, true), (0, true), (900001, true)]
        HealthState.empty).2.alertCounts "Mainnet:down" == some 1) = false ∧
    (runHealthCalls healthConfig true "Mainnet" "down"
        [(0, true), (0, true), (0, true), (900001, true)]
        HealthState.empty).2.alertCounts "Mainnet:down" = some 4 := by
  decide

/-- C3 (amended): the burst counter for a key is reset (the call evaluates
with a fully restored budget, is allowed, and the counter restarts from 0)
exactly when the stored timestamp is present, NONZERO, and
now - lastEmittedAt > burstWindow; otherwise the counter is monotonically
non-decreasing across the call. A stored timestamp of exactly 0 skips the
reset (see C10). -/
theorem C3_amended_burst_reset (cfg : ThrottleConfig) (n m : String)
    (now v : Nat) (ok : Bool) (s : HealthState)
    (hlim : 0 < cfg.burstLimit)
    (hlast : s.lastAlertTime (healthAlertKey n m) = some v) :
    (v ≠ 0 ∧ (cfg.burstWindow : Int) < (now : Int) - (v : Int) →
      (HealthAlertService.sendAlert cfg true n m now ok s).attempted = true ∧
      (HealthAlertService.sendAlert cfg true n m now ok s).state.alertCounts
          (healthAlertKey n m) = some (if ok then 1 else 0)) ∧
    (¬(v ≠ 0 ∧ (cfg.burstWindow : Int) < (now : Int) - (v : Int)) →
      (s.alertCounts (healthAlertKey n m)).getD 0 ≤
        ((HealthAlertService.sendAlert cfg true n m now ok s).state.alertCounts
            (healthAlertKey n m)).getD 0) := by
  constructor
  · rintro ⟨hv, hgt⟩
    have hw : healthWindowPassed cfg (s.lastAlertTime (healthAlertKey n m)) now = true := by
      rw [hlast]; exact (healthWindowPassed_some_iff cfg v now).mpr ⟨hv, hgt⟩
    have hc1 : healthCounts1 cfg s (healthAlertKey n m) now (healthAlertKey n m) = some 0 := by
      rw [healthCounts1_lookup, hw]; rfl
    have hth : healthThrottled cfg (s.lastAlertTime (healthAlertKey n m))
        ((healthCounts1 cfg s (healthAlertKey n m) now (healthAlertKey n m)).getD 0) now
        = false := by
      rw [hc1]
      simp only [healthThrottled, Option.getD_some]
      have : ¬ (0 ≥ cfg.burstLimit) := by omega
      simp [this]
    simp only [HealthAlertService.sendAlert, Bool.not_true, Bool.false_eq_true, if_false, hth]
    cases ok <;> simp [hc1, Store.set_self]
  · intro hno
    have hw : healthWindowPassed cfg (s.lastAlertTime (healthAlertKey n m)) now = false := by
      rw [hlast]
      cases hwp : healthWindowPassed cfg (some v) now with
      | false => rfl
      | true => exact absurd ((healthWindowPassed_some_iff cfg v now).mp hwp) hno
    have hc1 : healthCounts1 cfg s (healthAlertKey n m) now = s.alertCounts := by
      unfold healthCounts1; rw [hw]; simp
    simp only [HealthAlertService.sendAlert, Bool.not_true, Bool.false_eq_true, if_false, hc1]
    split
    · simp
    · cases ok <;> simp [Store.set_self]

def c3WitnessState : HealthState :=
  ⟨Store.empty.set "Mainnet:down" 1000, Store.empty.set "Mainnet:down" 3⟩

/-- C3 witness: with lastEmittedAt = 1000 (nonzero) and counter 3, a call at
now = 1000 + 900001 (beyond the burst window) is allowed and restarts the
counter at 1; and a call at now = 1000 (window not passed) does not decrease
the counter. -/
theorem C3_witness :
    ((1000 : Nat) ≠ 0 ∧ ((healthConfig.burstWindow : Int) < ((901001 : Nat) : Int) - ((1000 : Nat) : Int)) →
      (HealthAlertService.sendAlert healthConfig true "Mainnet" "down" 901001 true
        c3WitnessState).attempted = true ∧
      (HealthAlertService.sendAlert healthConfig true "Mainnet" "down" 901001 true
        c3WitnessState).state.alertCounts (healthAlertKey "Mainnet" "down")
        = some (if true then 1 else 0)) ∧
    (¬((1000 : Nat) ≠ 0 ∧ ((healthConfig.burstWindow : Int) < ((901001 : Nat) : Int) - ((1000 : Nat) : Int))) →
      (c3WitnessState.alertCounts (healthAlertKey "Mainnet" "down")).getD 0 ≤
        ((HealthAlertService.sendAlert healthConfig true "Mainnet" "down" 901001 true
            c3WitnessState).state.alertCounts (healthAlertKey "Mainnet" "down")).getD 0) :=
  C3_amended_burst_reset healthConfig "Mainnet" "down" 901001 1000 true c3WitnessState
    (by decide) (by decide)

/-- C4 (counterexample): three successful emissions at clock time 0 use up the
burst (counter = 3 = burstLimit, lastEmittedAt = 0); the call at
now = lastEmittedAt + minInterval - 1 = 299999 should be suppressed per the
claim, but the stored timestamp 0 is falsy so the interval check is skipped
and the call is allowed: all four results are true. -/
theorem C4_counterexample :
    (runHealthCalls healthConfig true "Mainnet" "down"
      [(0, true), (0, true), (0, true), (299999, true)] HealthState.empty).1
    = [true, true, true, true] := by
  decide

/-- C4 (amended): for a key whose recorded emissions have reached burstLimit
within the current burst window and whose last-emission timestamp is NONZERO,
a call at now = lastEmittedAt + minInterval - 1 is suppressed with no side
effect, and a call at now = lastEmittedAt + minInterval is allowed (the send
is attempted and the call returns the client's result). -/
theorem C4_amended_interval_boundary (cfg : ThrottleConfig) (n m : String)
    (v c : Nat) (ok : Bool) (s : HealthState)
    (hv : v ≠ 0) (hmin : 1 ≤ cfg.minInterval)
    (hwin : cfg.minInterval - 1 ≤ cfg.burstWindow)
    (hlast : s.lastAlertTime (healthAlertKey n m) = some v)
    (hcount : s.alertCounts (healthAlertKey n m) = some c)
    (hc : cfg.burstLimit ≤ c) :
    HealthAlertService.sendAlert cfg true n m (v + cfg.minInterval - 1) ok s
      = ⟨false, s, false⟩ ∧
    (HealthAlertService.sendAlert cfg true n m (v + cfg.minInterval) ok s).attempted
      = true ∧
    (HealthAlertService.sendAlert cfg true n m (v + cfg.minInterval) ok s).success
      = ok := by
  refine ⟨?_, ?_⟩
  · have hw : healthWindowPassed cfg (s.lastAlertTime (healthAlertKey n m))
        (v + cfg.minInterval - 1) = false := by
      rw [hlast]
      cases hwp : healthWindowPassed cfg (some v) (v + cfg.minInterval - 1) with
      | false => rfl
      | true =>
        rcases (healthWindowPassed_some_iff cfg v _).mp hwp with ⟨-, hgt⟩
        exfalso; omega
    have hc1 : healthCounts1 cfg s (healthAlertKey n m) (v + cfg.minInterval - 1)
        = s.alertCounts := by
      unfold healthCounts1; rw [hw]; simp
    have hth : healthThrottled cfg (s.lastAlertTime (healthAlertKey n m))
        ((s.alertCounts (healthAlertKey n m)).getD 0) (v + cfg.minInterval - 1) = true := by
      rw [hcount, hlast]
      simp only [healthThrottled, Option.getD_some, bne_iff_ne, ge_iff_le,
        Bool.and_eq_true, decide_eq_true_eq]
      refine ⟨hc, hv, ?_⟩
      omega
    simp only [HealthAlertService.sendAlert, Bool.not_true, Bool.false_eq_true, if_false,
      hc1, hth, if_true]
  · have hth : healthThrottled cfg (s.lastAlertTime (healthAlertKey n m))
        ((healthCounts1 cfg s (healthAlertKey n m) (v + cfg.minInterval)
          (healthAlertKey n m)).getD 0) (v + cfg.minInterval) = false := by
      rw [hlast]
      simp only [healthThrottled, bne_iff_ne, Bool.and_eq_false_iff, decide_eq_false_iff_not]
      right
      right
      omega
    simp only [HealthAlertService.sendAlert, Bool.not_true, Bool.false_eq_true, if_false, hth]
    cases ok <;> simp

def c4WitnessState : HealthState :=
  ⟨Store.empty.set "Mainnet:down" 1000, Store.empty.set "Mainnet:down" 3⟩

/-- C4 witness: lastEmittedAt = 1000, counter 3 = burstLimit: the call at
now = 1000 + 300000 - 1 is suppressed without side effects, the call at
now = 1000 + 300000 is attempted and succeeds. -/
theorem C4_witness :
    HealthAlertService.sendAlert healthConfig true "Mainnet" "down"
        (1000 + healthConfig.minInterval - 1) true c4WitnessState
      = ⟨false, c4WitnessState, false⟩ ∧
    (HealthAlertService.sendAlert healthConfig true "Mainnet" "down"
        (1000 + healthConfig.minInterval) true c4WitnessState).attempted = true ∧
    (HealthAlertService.sendAlert healthConfig true "Mainnet" "down"
        (1000 + healthConfig.minInterval) true c4WitnessState).success = true :=
  C4_amended_interval_boundary healthConfig "Mainnet" "down" 1000 3 true c4WitnessState
    (by decide) (by decide) (by decide) (by decide) (by decide) (by decide)

/-- C8: whenever the (enabled) health alert sender's throttle decides to
suppress a call, `sendAlert` returns false with no side effect whatsoever:
the whole state (both maps, every key) is exactly as before and control never
reaches the format-and-send lines. (Uses BURST_LIMIT > 0, true of the
hard-coded value 3: a suppressed call implies the burst-window reset did not
fire, so not even the reset write happened.) -/
theorem C8_suppressed_no_side_effects (cfg : ThrottleConfig) (n m : String)
    (now : Nat) (ok : Bool) (s : HealthState) (hlim : 0 < cfg.burstLimit)
    (hsup : (HealthAlertService.sendAlert cfg true n m now ok s).attempted = false) :
    HealthAlertService.sendAlert cfg true n m now ok s = ⟨false, s, false⟩ := by
  by_cases hth : healthThrottled cfg (s.lastAlertTime (healthAlertKey n m))
      ((healthCounts1 cfg s (healthAlertKey n m) now (healthAlertKey n m)).getD 0) now = true
  · have hw : healthWindowPassed cfg (s.lastAlertTime (healthAlertKey n m)) now = false := by
      cases hwp : healthWindowPassed cfg (s.lastAlertTime (healthAlertKey n m)) now with
      | false => rfl
      | true =>
        exfalso
        have hc1 : healthCounts1 cfg s (healthAlertKey n m) now (healthAlertKey n m)
            = some 0 := by
          rw [healthCounts1_lookup, hwp]; rfl
        rw [hc1] at hth
        simp only [healthThrottled, Option.getD_some, ge_iff_le, Bool.and_eq_true,
          decide_eq_true_eq] at hth
        omega
    have hc1 : healthCounts1 cfg s (healthAlertKey n m) now = s.alertCounts := by
      unfold healthCounts1; rw [hw]; simp
    rw [hc1] at hth
    simp only [HealthAlertService.sendAlert, Bool.not_true, Bool.false_eq_true, if_false,
      hc1, hth, if_true]
  · exfalso
    rw [Bool.not_eq_true] at hth
    simp only [HealthAlertService.sendAlert, Bool.not_true, Bool.false_eq_true, if_false,
      hth] at hsup
    cases ok <;> simp at hsup

def c8WitnessState : HealthState :=
  ⟨Store.empty.set "Mainnet:down" 1000, Store.empty.set "Mainnet:down" 3⟩

/-- C8 witness: counter 3, 100ms since last emission: suppressed, and the
returned outcome is exactly (false, unchanged state, nothing attempted). -/
theorem C8_witness :
    HealthAlertService.sendAlert healthConfig true "Mainnet" "down" 1100 true
      c8WitnessState = ⟨false, c8WitnessState, false⟩ :=
  C8_suppressed_no_side_effects healthConfig "Mainnet" "down" 1100 true c8WitnessState
    (by decide) (by decide)

/-- C2 (counterexample): the claim quantifies over EVERY alert sender, but
`PriceAlertService.sendAlert` records `lastAlertTime` BEFORE attempting the
send (line 53). From an empty state, a price_change send at now = 1000 whose
client send FAILS still creates the throttle entry (some 1000), and an
immediately subsequent attempt at now = 2000 is suppressed — whereas had the
failed attempt never been tried it would have been allowed. -/
theorem C2_counterexample :
    (PriceAlertService.sendAlert true .price_change "1.0" 1000 false
      PriceState.empty).success = false ∧
    (PriceAlertService.sendAlert true .price_change "1.0" 1000 false
      PriceState.empty).state.lastAlertTime "price_change:1.0" = some 1000 ∧
    (PriceAlertService.sendAlert true .price_change "1.0" 2000 true
      (PriceAlertService.sendAlert true .price_change "1.0" 1000 false
        PriceState.empty).state).success = false ∧
    (PriceAlertService.sendAlert true .price_change "1.0" 2000 true
      PriceState.empty).success = true := by
  decide

/-- C2 (amended): for the health (and telegram) alert sender, a failed send
never updates `lastAlertTime` and never counts an emission (the burst-window
check may already have reset the counter to 0, but that is recomputed
identically on the next call), so a subsequent `sendAlert` for the same key at
the same or any later time returns the same allow/suppress decision it would
have returned had the failed attempt never been tried. The price alert sender
violates the claim: it records `lastAlertTime` before attempting the send. -/
theorem C2_amended_failed_send (cfg : ThrottleConfig) (n m : String)
    (now now' : Nat) (ok' : Bool) (s : HealthState) (hle : now ≤ now') :
    (HealthAlertService.sendAlert cfg true n m now false s).state.lastAlertTime
      = s.lastAlertTime ∧
    (HealthAlertService.sendAlert cfg true n m now' ok'
        (HealthAlertService.sendAlert cfg true n m now false s).state).success
      = (HealthAlertService.sendAlert cfg true n m now' ok' s).success ∧
    (HealthAlertService.sendAlert cfg true n m now' ok'
        (HealthAlertService.sendAlert cfg true n m now false s).state).attempted
      = (HealthAlertService.sendAlert cfg true n m now' ok' s).attempted := by
  have hr : (HealthAlertService.sendAlert cfg true n m now false s).state
      = { s with alertCounts := healthCounts1 cfg s (healthAlertKey n m) now } := by
    simp only [HealthAlertService.sendAlert, Bool.not_true, Bool.false_eq_true, if_false]
    split <;> rfl
  have hkey : (HealthAlertService.sendAlert cfg true n m now false s).state.lastAlertTime
      = s.lastAlertTime := by rw [hr]
  refine ⟨hkey, ?_⟩
  cases hwp' : healthWindowPassed cfg (s.lastAlertTime (healthAlertKey n m)) now' with
  | true =>
    have h2 : healthCounts1 cfg
          (HealthAlertService.sendAlert cfg true n m now false s).state
          (healthAlertKey n m) now' (healthAlertKey n m)
        = healthCounts1 cfg s (healthAlertKey n m) now' (healthAlertKey n m) := by
      rw [healthCounts1_lookup, healthCounts1_lookup, hkey, hwp']
      simp
    exact sendAlert_decision_congr cfg n m now' ok' _ s (by rw [hkey]) h2
  | false =>
    have hwp0 : healthWindowPassed cfg (s.lastAlertTime (healthAlertKey n m)) now = false :=
      healthWindowPassed_mono cfg _ now now' hle hwp'
    have hr2 : (HealthAlertService.sendAlert cfg true n m now false s).state = s := by
      rw [hr]
      unfold healthCounts1
      rw [hwp0]
      simp
    rw [hr2]
    exact ⟨rfl, rfl⟩

def c2WitnessState : HealthState :=
  ⟨Store.empty.set "Mainnet:down" 1000, Store.empty.set "Mainnet:down" 2⟩

/-- C2 witness: from a state with one burst slot left, a failed send at
now = 2000 leaves lastAlertTime untouched and the decision of a retry at
now = 3000 identical to the no-failed-attempt decision. -/
theorem C2_witness :
    (HealthAlertService.sendAlert healthConfig true "Mainnet" "down" 2000 false
        c2WitnessState).state.lastAlertTime = c2WitnessState.lastAlertTime ∧
    (HealthAlertService.sendAlert healthConfig true "Mainnet" "down" 3000 true
        (HealthAlertService.sendAlert healthConfig true "Mainnet" "down" 2000 false
          c2WitnessState).state).success
      = (HealthAlertService.sendAlert healthConfig true "Mainnet" "down" 3000 true
          c2WitnessState).success ∧
    (HealthAlertService.sendAlert healthConfig true "Mainnet" "down" 3000 true
        (HealthAlertService.sendAlert healthConfig true "Mainnet" "down" 2000 false
          c2WitnessState).state).attempted
      = (HealthAlertService.sendAlert healthConfig true "Mainnet" "down" 3000 true
          c2WitnessState).attempted :=
  C2_amended_failed_send healthConfig "Mainnet" "down" 2000 3000 true c2WitnessState
    (by decide)

theorem sendAlert_frame (cfg : ThrottleConfig) (n m : String) (now : Nat)
    (ok : Bool) (s : HealthState) (k : String) (hk : k ≠ healthAlertKey n m) :
    (HealthAlertService.sendAlert cfg true n m now ok s).state.lastAlertTime k
        = s.lastAlertTime k ∧
    (HealthAlertService.sendAlert cfg true n m now ok s).state.alertCounts k
        = s.alertCounts k := by
  simp only [HealthAlertService.sendAlert, Bool.not_true, Bool.false_eq_true, if_false]
  split
  · exact ⟨rfl, healthCounts1_lookup_ne cfg s _ k now hk⟩
  · cases ok <;>
      simp [Store.set_ne _ _ _ _ hk, healthCounts1_lookup_ne cfg s _ k now hk]

/-- C9: for two different scope values with the same message text the throttle
keys are distinct strings, so a `sendAlert` for scope s1 changes nothing at
any other key (in particular not at scope s2's key) and the allow/suppress
decision for (s2, message) afterwards is what it was before. -/
theorem C9_scope_independence (cfg : ThrottleConfig) (s1 s2 m : String)
    (now now' : Nat) (ok ok' : Bool) (st : HealthState) (h : s1 ≠ s2) :
    (∀ k, k ≠ healthAlertKey s1 m →
      (HealthAlertService.sendAlert cfg true s1 m now ok st).state.lastAlertTime k
          = st.lastAlertTime k ∧
      (HealthAlertService.sendAlert cfg true s1 m now ok st).state.alertCounts k
          = st.alertCounts k) ∧
    (HealthAlertService.sendAlert cfg true s2 m now' ok'
        (HealthAlertService.sendAlert cfg true s1 m now ok st).state).success
      = (HealthAlertService.sendAlert cfg true s2 m now' ok' st).success := by
  have hk : healthAlertKey s2 m ≠ healthAlertKey s1 m :=
    (healthAlertKey_scope_ne m h).symm
  have hframe := sendAlert_frame cfg s1 m now ok st
  refine ⟨hframe, ?_⟩
  have h1 := (hframe (healthAlertKey s2 m) hk).1
  have h2c := (hframe (healthAlertKey s2 m) hk).2
  have h2 : healthCounts1 cfg
        (HealthAlertService.sendAlert cfg true s1 m now ok st).state
        (healthAlertKey s2 m) now' (healthAlertKey s2 m)
      = healthCounts1 cfg st (healthAlertKey s2 m) now' (healthAlertKey s2 m) := by
    rw [healthCounts1_lookup, healthCounts1_lookup, h1, h2c]
  exact (sendAlert_decision_congr cfg s2 m now' ok' _ st h1 h2).1

def c9WitnessState : HealthState :=
  ⟨Store.empty.set "BSC:down" 1000, Store.empty.set "BSC:down" 3⟩

/-- C9 witness: scopes "BSC" and "Mainnet" with the same message: an emission
for "BSC" leaves every other key's state unchanged and does not change the
decision for "Mainnet". -/
theorem C9_witness :
    (∀ k, k ≠ healthAlertKey "BSC" "down" →
      (HealthAlertService.sendAlert healthConfig true "BSC" "down" 600000 true
          c9WitnessState).state.lastAlertTime k = c9WitnessState.lastAlertTime k ∧
      (HealthAlertService.sendAlert healthConfig true "BSC" "down" 600000 true
          c9WitnessState).state.alertCounts k = c9WitnessState.alertCounts k) ∧
    (HealthAlertService.sendAlert healthConfig true "Mainnet" "down" 600000 true
        (HealthAlertService.sendAlert healthConfig true "BSC" "down" 600000 true
          c9WitnessState).state).success
      = (HealthAlertService.sendAlert healthConfig true "Mainnet" "down" 600000 true
          c9WitnessState).success :=
  C9_scope_independence healthConfig "BSC" "Mainnet" "down" 600000 600000 true true
    c9WitnessState (by decide)
